import Mathlib

/-!
Verification of the environment-driven LLM client factory
(`src/tutorial/llm_factory.py`, class `LLMFactory`, method `get_llm`).

The process environment is modelled as a partial map from variable names
to string values (`Env`).  Python truthiness of `os.getenv` results
(`None` or the empty string are falsy) is captured by `truthy`; the
Python `or` operator on such values by `pyOr`; `str.rstrip("/")` by
`rstrip`.  The `AzureChatOpenAI` constructor call is modelled as
building a record of the keyword arguments passed to it, and the
`raise EnvironmentError(...)` as returning `Except.error` with the
formatted message.
-/

def Env : Type := String → Option String

/-- A concrete environment built from an association list. -/
def envOf (l : List (String × String)) : Env :=
  fun k => (l.find? (fun p => p.1 == k)).map (fun p => p.2)

namespace LLMFactory

/-- Python truthiness of an `os.getenv` result: `None` and `""` are falsy. -/
def truthy : Option String → Bool
  | none => false
  | some s => !(s == "")

/-- Python `a or b` on `os.getenv` results: returns `a` if truthy, else `b`. -/
def pyOr (a b : Option String) : Option String :=
  if truthy a then a else b

/-- Python `s.rstrip(c)`: removes every trailing occurrence of `c`. -/
def rstrip (s : String) (c : Char) : String :=
  String.mk (((s.data.reverse).dropWhile (fun x => x == c)).reverse)

/-- The keyword arguments with which the `AzureChatOpenAI` constructor is
invoked at the end of `get_llm`. -/
structure AzureChatOpenAI where
  api_key : String
  api_version : String
  azure_endpoint : String
  azure_deployment : String
  temperature : ℚ
deriving DecidableEq, Repr

/-- The `missing` list built by the validation block of `get_llm`: the
required variable names appended in source order whenever the
corresponding resolved value is falsy. -/
def missingList (env : Env) : List String :=
  (if truthy (env "AZURE_OPENAI_KEY") then [] else ["AZURE_OPENAI_KEY"]) ++
  (if truthy (env "AZURE_OPENAI_ENDPOINT") then [] else ["AZURE_OPENAI_ENDPOINT"]) ++
  (if truthy (pyOr (env "AZURE_OPENAI_DEPLOYMENT_NAME") (env "AZURE_OPENAI_DEPLOYMENT"))
   then [] else ["AZURE_OPENAI_DEPLOYMENT_NAME"])

/-- `LLMFactory.get_llm`: resolves the five variables, validates the three
required fields, normalizes the endpoint, and constructs the client. -/
def get_llm (env : Env) : Except String AzureChatOpenAI :=
  let api_key := env "AZURE_OPENAI_KEY"
  let api_version := (env "AZURE_OPENAI_VERSION").getD "2024-02-15-preview"
  let azure_endpoint := env "AZURE_OPENAI_ENDPOINT"
  let azure_deployment :=
    pyOr (env "AZURE_OPENAI_DEPLOYMENT_NAME") (env "AZURE_OPENAI_DEPLOYMENT")
  let missing := missingList env
  if missing.isEmpty then
    Except.ok
      { api_key := api_key.getD ""
        api_version := api_version
        azure_endpoint := rstrip (azure_endpoint.getD "") '/'
        azure_deployment := azure_deployment.getD ""
        temperature := 0 }
  else
    Except.error
      ("Missing required environment variables: " ++ String.intercalate ", " missing)

/-- The resolved deployment identifier (lines 16-19 of the source). -/
def deploymentResolved (env : Env) : Option String :=
  pyOr (env "AZURE_OPENAI_DEPLOYMENT_NAME") (env "AZURE_OPENAI_DEPLOYMENT")

/-- The three required variable names, in the order the validation block
checks them. -/
def requiredVars : List String :=
  ["AZURE_OPENAI_KEY", "AZURE_OPENAI_ENDPOINT", "AZURE_OPENAI_DEPLOYMENT_NAME"]

/-- Whether the required field reported under a given name is present
(non-empty) in the environment: the deployment identifier counts as
present when either of its two variables resolves to a non-empty value. -/
def requiredPresent (env : Env) : String → Bool
  | "AZURE_OPENAI_KEY" => truthy (env "AZURE_OPENAI_KEY")
  | "AZURE_OPENAI_ENDPOINT" => truthy (env "AZURE_OPENAI_ENDPOINT")
  | _ => truthy (deploymentResolved env)

lemma truthy_some_iff (s : String) : truthy (some s) = true ↔ s ≠ "" := by
  simp [truthy]

lemma truthy_eq_true_iff (o : Option String) :
    truthy o = true ↔ ∃ s, o = some s ∧ s ≠ "" := by
  cases o <;> simp [truthy]

lemma truthy_pyOr (a b : Option String) :
    truthy (pyOr a b) = (truthy a || truthy b) := by
  unfold pyOr
  cases h : truthy a <;> simp [h]

lemma missingList_eq_nil_iff (env : Env) :
    missingList env = [] ↔
      (truthy (env "AZURE_OPENAI_KEY") = true ∧
       truthy (env "AZURE_OPENAI_ENDPOINT") = true ∧
       truthy (deploymentResolved env) = true) := by
  unfold missingList deploymentResolved
  cases truthy (env "AZURE_OPENAI_KEY") <;>
    cases truthy (env "AZURE_OPENAI_ENDPOINT") <;>
      cases truthy (pyOr (env "AZURE_OPENAI_DEPLOYMENT_NAME")
        (env "AZURE_OPENAI_DEPLOYMENT")) <;> simp

/-- The record constructed on the success path of `get_llm`. -/
def builtClient (env : Env) : AzureChatOpenAI :=
  { api_key := (env "AZURE_OPENAI_KEY").getD ""
    api_version := (env "AZURE_OPENAI_VERSION").getD "2024-02-15-preview"
    azure_endpoint := rstrip ((env "AZURE_OPENAI_ENDPOINT").getD "") '/'
    azure_deployment := (deploymentResolved env).getD ""
    temperature := 0 }

lemma get_llm_of_nil (env : Env) (h : missingList env = []) :
    get_llm env = Except.ok (builtClient env) := by
  unfold get_llm builtClient deploymentResolved
  simp [h]

lemma get_llm_of_ne_nil (env : Env) (h : missingList env ≠ []) :
    get_llm env = Except.error
      ("Missing required environment variables: " ++
        String.intercalate ", " (missingList env)) := by
  unfold get_llm
  simp [List.isEmpty_iff, h]

lemma get_llm_ok_inv (env : Env) (c : AzureChatOpenAI)
    (h : get_llm env = Except.ok c) :
    missingList env = [] ∧ c = builtClient env := by
  by_cases hm : missingList env = []
  · rw [get_llm_of_nil env hm] at h
    exact ⟨hm, (Except.ok.inj h).symm⟩
  · rw [get_llm_of_ne_nil env hm] at h
    cases h

lemma rstrip_data (s : String) (c : Char) :
    (rstrip s c).data = (s.data.reverse.dropWhile (fun x => x == c)).reverse := rfl

lemma head?_dropWhile_false (p : Char → Bool) (l : List Char) (x : Char)
    (h : (l.dropWhile p).head? = some x) : p x = false := by
  have hf := List.find?_not_eq_head?_dropWhile p l
  rw [h] at hf
  have := List.find?_some hf
  simpa using this

lemma rstrip_append (s : String) (c : Char) :
    ∃ n, s = rstrip s c ++ String.mk (List.replicate n c) := by
  refine ⟨(s.data.reverse.takeWhile (fun x => x == c)).length, ?_⟩
  have h1 := List.takeWhile_append_dropWhile (fun x => x == c) s.data.reverse
  have h2 : (s.data.reverse.dropWhile (fun x => x == c)).reverse ++
      (s.data.reverse.takeWhile (fun x => x == c)).reverse = s.data := by
    conv_rhs => rw [← List.reverse_reverse s.data, ← h1]
    rw [List.reverse_append]
  have h3 : s.data.reverse.takeWhile (fun x => x == c) =
      List.replicate (s.data.reverse.takeWhile (fun x => x == c)).length c := by
    apply List.eq_replicate_length.mpr
    intro b hb
    have := List.mem_takeWhile_imp hb
    simpa using this
  apply String.ext
  show s.data = (rstrip s c).data ++ List.replicate _ c
  rw [rstrip_data]
  conv_lhs => rw [← h2]
  congr 1
  rw [← List.reverse_replicate, ← h3]

lemma rstrip_getLast_ne (s : String) (c : Char) :
    (rstrip s c).data.getLast? ≠ some c := by
  intro h
  rw [rstrip_data, List.getLast?_reverse] at h
  have := head?_dropWhile_false (fun x => x == c) s.data.reverse c h
  simp at this

lemma rstrip_eq_self (s : String) (c : Char) (h : s.data.getLast? ≠ some c) :
    rstrip s c = s := by
  apply String.ext
  rw [rstrip_data]
  cases hr : s.data.reverse with
  | nil =>
      have hd : s.data = [] := by
        simpa using congrArg List.reverse hr
      simp [hd]
  | cons a t =>
      have hlast : s.data.getLast? = some a := by
        rw [← List.head?_reverse, hr]
        rfl
      cases hac : (a == c) with
      | true =>
          have hc : a = c := beq_iff_eq.mp hac
          exact absurd (by rw [hlast, hc]) h
      | false =>
          rw [List.dropWhile_cons_of_neg (by simp [hac]), ← hr]
          simp

lemma requiredPresent_key (env : Env) :
    requiredPresent env "AZURE_OPENAI_KEY" = truthy (env "AZURE_OPENAI_KEY") := rfl

lemma requiredPresent_endpoint (env : Env) :
    requiredPresent env "AZURE_OPENAI_ENDPOINT" =
      truthy (env "AZURE_OPENAI_ENDPOINT") := rfl

lemma requiredPresent_deployment (env : Env) :
    requiredPresent env "AZURE_OPENAI_DEPLOYMENT_NAME" =
      truthy (pyOr (env "AZURE_OPENAI_DEPLOYMENT_NAME")
        (env "AZURE_OPENAI_DEPLOYMENT")) := rfl

/-- An environment with no variable set at all. -/
def envEmpty : Env := envOf []

/-- An environment where every variable is set, both deployment names
included. -/
def envBoth : Env :=
  envOf [("AZURE_OPENAI_KEY", "k"),
         ("AZURE_OPENAI_ENDPOINT", "https://x.example.com"),
         ("AZURE_OPENAI_DEPLOYMENT_NAME", "d1"),
         ("AZURE_OPENAI_DEPLOYMENT", "d2")]

/-- An environment where only the secondary deployment variable is set. -/
def envSecondaryOnly : Env :=
  envOf [("AZURE_OPENAI_KEY", "k"),
         ("AZURE_OPENAI_ENDPOINT", "e"),
         ("AZURE_OPENAI_DEPLOYMENT", "dep")]

/-- An environment whose endpoint carries a trailing separator. -/
def envSlash : Env :=
  envOf [("AZURE_OPENAI_KEY", "k"),
         ("AZURE_OPENAI_ENDPOINT", "https://x.example.com/"),
         ("AZURE_OPENAI_DEPLOYMENT_NAME", "d1")]

/-- An environment with an explicitly empty API version and an endpoint
consisting of a single separator. -/
def envDegenerate : Env :=
  envOf [("AZURE_OPENAI_KEY", "k"),
         ("AZURE_OPENAI_VERSION", ""),
         ("AZURE_OPENAI_ENDPOINT", "/"),
         ("AZURE_OPENAI_DEPLOYMENT_NAME", "d")]

/-- Claim C1: `get_llm` fails if and only if at least one required field
(credential key, endpoint, deployment identifier) is absent or empty; the
list of missing names it reports is exactly the required variables minus
the present ones; and when both deployment-name variables are absent the
deployment identifier is among the reported missing fields. -/
theorem get_llm_error_iff_missing (env : Env) :
    ((∃ m, get_llm env = Except.error m) ↔
      (truthy (env "AZURE_OPENAI_KEY") = false ∨
       truthy (env "AZURE_OPENAI_ENDPOINT") = false ∨
       truthy (deploymentResolved env) = false))
    ∧ missingList env = requiredVars.filter (fun v => !(requiredPresent env v))
    ∧ (env "AZURE_OPENAI_DEPLOYMENT_NAME" = none →
       env "AZURE_OPENAI_DEPLOYMENT" = none →
       "AZURE_OPENAI_DEPLOYMENT_NAME" ∈ missingList env) := by
  refine ⟨?_, ?_, ?_⟩
  · constructor
    · rintro ⟨m, hm⟩
      by_contra hcon
      push_neg at hcon
      have hnil : missingList env = [] := by
        apply (missingList_eq_nil_iff env).mpr
        exact ⟨Bool.ne_false_iff.mp hcon.1, Bool.ne_false_iff.mp hcon.2.1,
          Bool.ne_false_iff.mp hcon.2.2⟩
      rw [get_llm_of_nil env hnil] at hm
      cases hm
    · intro hmiss
      have hne : missingList env ≠ [] := by
        intro hnil
        obtain ⟨h1, h2, h3⟩ := (missingList_eq_nil_iff env).mp hnil
        rcases hmiss with h | h | h <;> simp_all
      exact ⟨_, get_llm_of_ne_nil env hne⟩
  · cases hK : truthy (env "AZURE_OPENAI_KEY") <;>
      cases hE : truthy (env "AZURE_OPENAI_ENDPOINT") <;>
        cases hD : truthy (pyOr (env "AZURE_OPENAI_DEPLOYMENT_NAME")
            (env "AZURE_OPENAI_DEPLOYMENT")) <;>
          simp [missingList, requiredVars, List.filter_cons, List.filter_nil,
            requiredPresent_key, requiredPresent_endpoint,
            requiredPresent_deployment, hK, hE, hD]
  · intro hN hD
    have hfalse : truthy (pyOr (env "AZURE_OPENAI_DEPLOYMENT_NAME")
        (env "AZURE_OPENAI_DEPLOYMENT")) = false := by
      simp [pyOr, truthy, hN, hD]
    simp [missingList, hfalse]

/-- Witness for C1 at the empty environment: with both deployment-name
variables absent, the deployment identifier is reported missing. -/
theorem get_llm_error_iff_missing_witness :
    "AZURE_OPENAI_DEPLOYMENT_NAME" ∈ missingList envEmpty :=
  (get_llm_error_iff_missing envEmpty).2.2 rfl rfl

/-- Claim C2: the deployment identifier is resolved as the first truthy
value among the primary variable and the secondary variable, in that
order; when only the secondary is present and non-empty, its value is
used and the deployment field is not reported missing. -/
theorem deployment_fallback_resolution (env : Env) (c : AzureChatOpenAI)
    (d : String) :
    (truthy (env "AZURE_OPENAI_DEPLOYMENT_NAME") = true →
      deploymentResolved env = env "AZURE_OPENAI_DEPLOYMENT_NAME")
    ∧ (truthy (env "AZURE_OPENAI_DEPLOYMENT_NAME") = false →
      deploymentResolved env = env "AZURE_OPENAI_DEPLOYMENT")
    ∧ (truthy (env "AZURE_OPENAI_DEPLOYMENT_NAME") = false →
       env "AZURE_OPENAI_DEPLOYMENT" = some d → d ≠ "" →
       ("AZURE_OPENAI_DEPLOYMENT_NAME" ∉ missingList env ∧
        (get_llm env = Except.ok c → c.azure_deployment = d))) := by
  refine ⟨?_, ?_, ?_⟩
  · intro h
    simp [deploymentResolved, pyOr, h]
  · intro h
    simp [deploymentResolved, pyOr, h]
  · intro h1 h2 h3
    have hres : deploymentResolved env = some d := by
      simp [deploymentResolved, pyOr, h1, h2]
    have htr : truthy (deploymentResolved env) = true := by
      rw [hres]
      exact (truthy_some_iff d).mpr h3
    constructor
    · have htr' : truthy (pyOr (env "AZURE_OPENAI_DEPLOYMENT_NAME")
          (env "AZURE_OPENAI_DEPLOYMENT")) = true := htr
      unfold missingList
      rw [htr']
      cases truthy (env "AZURE_OPENAI_KEY") <;>
        cases truthy (env "AZURE_OPENAI_ENDPOINT") <;> simp
    · intro hok
      have hc := (get_llm_ok_inv env c hok).2
      rw [hc]
      show (deploymentResolved env).getD "" = d
      rw [hres]
      rfl

/-- Witness for C2: with only the secondary deployment variable set, no
error is recorded for the deployment field and the constructed client
carries the secondary value. -/
theorem deployment_fallback_resolution_witness :
    "AZURE_OPENAI_DEPLOYMENT_NAME" ∉ missingList envSecondaryOnly ∧
    (AzureChatOpenAI.mk "k" "2024-02-15-preview" "e" "dep" 0).azure_deployment =
      "dep" := by
  have h := (deployment_fallback_resolution envSecondaryOnly
    (AzureChatOpenAI.mk "k" "2024-02-15-preview" "e" "dep" 0) "dep").2.2
    rfl rfl (by decide)
  exact ⟨h.1, h.2 rfl⟩

/-- Counterexample to claim C3: with both deployment-name variables set
non-empty, `get_llm` still succeeds, so "exactly one of the two
deployment-name variables resolves to a non-empty value" fails. -/
theorem exactly_one_deployment_refuted :
    get_llm envBoth =
      Except.ok (AzureChatOpenAI.mk "k" "2024-02-15-preview"
        "https://x.example.com" "d1" 0)
    ∧ truthy (envBoth "AZURE_OPENAI_DEPLOYMENT_NAME") = true
    ∧ truthy (envBoth "AZURE_OPENAI_DEPLOYMENT") = true
    ∧ ¬ ((truthy (envBoth "AZURE_OPENAI_DEPLOYMENT_NAME") = true ∧
          truthy (envBoth "AZURE_OPENAI_DEPLOYMENT") = false) ∨
         (truthy (envBoth "AZURE_OPENAI_DEPLOYMENT_NAME") = false ∧
          truthy (envBoth "AZURE_OPENAI_DEPLOYMENT") = true)) :=
  ⟨rfl, rfl, rfl, by decide⟩

/-- Claim C3 (amended): whenever `get_llm` succeeds, at least one of the
two deployment-name variables resolves to a non-empty value. -/
theorem get_llm_ok_deployment_at_least_one (env : Env) (c : AzureChatOpenAI)
    (h : get_llm env = Except.ok c) :
    truthy (env "AZURE_OPENAI_DEPLOYMENT_NAME") = true ∨
    truthy (env "AZURE_OPENAI_DEPLOYMENT") = true := by
  have hm := (get_llm_ok_inv env c h).1
  have h3 := ((missingList_eq_nil_iff env).mp hm).2.2
  have h3' : (truthy (env "AZURE_OPENAI_DEPLOYMENT_NAME") ||
      truthy (env "AZURE_OPENAI_DEPLOYMENT")) = true := by
    rw [← truthy_pyOr]
    exact h3
  simpa [Bool.or_eq_true] using h3'

/-- Witness for C3's amended statement at an environment where both
deployment variables are set. -/
theorem get_llm_ok_deployment_at_least_one_witness :
    truthy (envBoth "AZURE_OPENAI_DEPLOYMENT_NAME") = true ∨
    truthy (envBoth "AZURE_OPENAI_DEPLOYMENT") = true :=
  get_llm_ok_deployment_at_least_one envBoth
    (AzureChatOpenAI.mk "k" "2024-02-15-preview" "https://x.example.com" "d1" 0)
    rfl

/-- Claim C4: the endpoint passed to construction is the input with all
trailing separator characters removed; a value with no trailing separator
passes through unchanged. -/
theorem endpoint_rstrip_normalization (env : Env) (e : String)
    (c : AzureChatOpenAI) :
    (env "AZURE_OPENAI_ENDPOINT" = some e → get_llm env = Except.ok c →
      c.azure_endpoint = rstrip e '/')
    ∧ (∃ n, e = rstrip e '/' ++ String.mk (List.replicate n '/'))
    ∧ (rstrip e '/').data.getLast? ≠ some '/'
    ∧ (e.data.getLast? ≠ some '/' → rstrip e '/' = e) := by
  refine ⟨?_, rstrip_append e '/', rstrip_getLast_ne e '/', rstrip_eq_self e '/'⟩
  intro he hok
  rw [(get_llm_ok_inv env c hok).2]
  show rstrip ((env "AZURE_OPENAI_ENDPOINT").getD "") '/' = rstrip e '/'
  rw [he]
  rfl

/-- Witness for C4: the trailing separator of a concrete endpoint is
stripped before construction, and an endpoint without one is unchanged. -/
theorem endpoint_rstrip_normalization_witness :
    (AzureChatOpenAI.mk "k" "2024-02-15-preview" "https://x.example.com" "d1"
        0).azure_endpoint = rstrip "https://x.example.com/" '/'
    ∧ rstrip "https://x.example.com" '/' = "https://x.example.com" := by
  constructor
  · exact (endpoint_rstrip_normalization envSlash "https://x.example.com/"
      (AzureChatOpenAI.mk "k" "2024-02-15-preview" "https://x.example.com" "d1"
        0)).1 rfl rfl
  · exact (endpoint_rstrip_normalization envSlash "https://x.example.com"
      (AzureChatOpenAI.mk "k" "2024-02-15-preview" "https://x.example.com" "d1"
        0)).2.2.2 (by decide)

/-- Counterexample to claim C5: with the version variable set to the empty
string and the endpoint set to a lone separator, `get_llm` succeeds while
the constructed API version and endpoint are both empty, so "all four
resolved values are non-empty" fails. -/
theorem all_four_nonempty_refuted :
    get_llm envDegenerate = Except.ok (AzureChatOpenAI.mk "k" "" "" "d" 0)
    ∧ (AzureChatOpenAI.mk "k" "" "" "d" 0).api_version = ""
    ∧ (AzureChatOpenAI.mk "k" "" "" "d" 0).azure_endpoint = "" :=
  ⟨rfl, rfl, rfl⟩

/-- Claim C5 (amended): whenever `get_llm` succeeds, the credential key
and deployment identifier passed to construction are non-empty and the
endpoint carries no trailing separator; the API version and the
normalized endpoint may be empty. -/
theorem get_llm_ok_required_nonempty (env : Env) (c : AzureChatOpenAI)
    (h : get_llm env = Except.ok c) :
    c.api_key ≠ "" ∧ c.azure_deployment ≠ "" ∧
    c.azure_endpoint.data.getLast? ≠ some '/' := by
  obtain ⟨hm, hc⟩ := get_llm_ok_inv env c h
  obtain ⟨hK, hE, hD⟩ := (missingList_eq_nil_iff env).mp hm
  obtain ⟨k, hk, hk'⟩ := (truthy_eq_true_iff _).mp hK
  obtain ⟨d, hd, hd'⟩ := (truthy_eq_true_iff _).mp hD
  subst hc
  refine ⟨?_, ?_, ?_⟩
  · show (env "AZURE_OPENAI_KEY").getD "" ≠ ""
    rw [hk]
    exact hk'
  · show (deploymentResolved env).getD "" ≠ ""
    rw [hd]
    exact hd'
  · exact rstrip_getLast_ne _ '/'

/-- Witness for C5's amended statement at the degenerate environment. -/
theorem get_llm_ok_required_nonempty_witness :
    (AzureChatOpenAI.mk "k" "" "" "d" 0).api_key ≠ ""
    ∧ (AzureChatOpenAI.mk "k" "" "" "d" 0).azure_deployment ≠ ""
    ∧ (AzureChatOpenAI.mk "k" "" "" "d" 0).azure_endpoint.data.getLast? ≠
        some '/' :=
  get_llm_ok_required_nonempty envDegenerate
    (AzureChatOpenAI.mk "k" "" "" "d" 0) rfl

/-- Claim C6: on success, the API version equals the fixed default when
its variable is absent and the literal environment value (even empty)
when present. -/
theorem api_version_default_or_literal (env : Env) (c : AzureChatOpenAI)
    (h : get_llm env = Except.ok c) :
    (env "AZURE_OPENAI_VERSION" = none →
      c.api_version = "2024-02-15-preview")
    ∧ (∀ v, env "AZURE_OPENAI_VERSION" = some v → c.api_version = v) := by
  rw [(get_llm_ok_inv env c h).2]
  constructor
  · intro hv
    show (env "AZURE_OPENAI_VERSION").getD "2024-02-15-preview" = _
    rw [hv]
    rfl
  · intro v hv
    show (env "AZURE_OPENAI_VERSION").getD "2024-02-15-preview" = v
    rw [hv]
    rfl

/-- Witness for C6: an explicitly empty version variable is passed through
literally. -/
theorem api_version_default_or_literal_witness :
    (AzureChatOpenAI.mk "k" "" "" "d" 0).api_version = "" :=
  (api_version_default_or_literal envDegenerate
    (AzureChatOpenAI.mk "k" "" "" "d" 0) rfl).2 "" rfl

/-- The error message produced when all three required fields are
missing. -/
def msgAllMissing : String :=
  "Missing required environment variables: AZURE_OPENAI_KEY, " ++
  "AZURE_OPENAI_ENDPOINT, AZURE_OPENAI_DEPLOYMENT_NAME"

set_option maxRecDepth 4000 in
/-- Claim C7: when any required field is missing, `get_llm` produces a
single error carrying the joined list of all missing variable names and
constructs no client; when all three are missing the single message
contains all three names. -/
theorem configuration_error_single_message (env : Env) :
    (missingList env ≠ [] →
      get_llm env = Except.error
        ("Missing required environment variables: " ++
          String.intercalate ", " (missingList env)))
    ∧ ((truthy (env "AZURE_OPENAI_KEY") = false ∧
        truthy (env "AZURE_OPENAI_ENDPOINT") = false ∧
        truthy (deploymentResolved env) = false) →
       (get_llm env = Except.error msgAllMissing
        ∧ List.IsInfix "AZURE_OPENAI_KEY".data msgAllMissing.data
        ∧ List.IsInfix "AZURE_OPENAI_ENDPOINT".data msgAllMissing.data
        ∧ List.IsInfix "AZURE_OPENAI_DEPLOYMENT_NAME".data
            msgAllMissing.data)) := by
  constructor
  · exact get_llm_of_ne_nil env
  · rintro ⟨hK, hE, hD⟩
    have hD' : truthy (pyOr (env "AZURE_OPENAI_DEPLOYMENT_NAME")
        (env "AZURE_OPENAI_DEPLOYMENT")) = false := hD
    have hlist : missingList env =
        ["AZURE_OPENAI_KEY", "AZURE_OPENAI_ENDPOINT",
         "AZURE_OPENAI_DEPLOYMENT_NAME"] := by
      simp [missingList, hK, hE, hD']
    refine ⟨?_, by decide, by decide, by decide⟩
    rw [get_llm_of_ne_nil env (by rw [hlist]; simp), hlist]
    rfl

/-- Witness for C7 at the empty environment: one error message containing
all three required variable names. -/
theorem configuration_error_single_message_witness :
    get_llm envEmpty = Except.error msgAllMissing
    ∧ List.IsInfix "AZURE_OPENAI_KEY".data msgAllMissing.data
    ∧ List.IsInfix "AZURE_OPENAI_ENDPOINT".data msgAllMissing.data
    ∧ List.IsInfix "AZURE_OPENAI_DEPLOYMENT_NAME".data msgAllMissing.data :=
  (configuration_error_single_message envEmpty).2 ⟨rfl, rfl, rfl⟩

/-- Claim C8: resolution is deterministic: two invocations of `get_llm`
under the same environment state yield the same outcome, error message
and configuration values included. -/
theorem get_llm_deterministic (env : Env)
    (r1 r2 : Except String AzureChatOpenAI)
    (h1 : get_llm env = r1) (h2 : get_llm env = r2) : r1 = r2 := by
  rw [← h1, ← h2]

/-- Witness for C8 at a concrete environment. -/
theorem get_llm_deterministic_witness :
    (Except.ok (AzureChatOpenAI.mk "k" "2024-02-15-preview"
        "https://x.example.com" "d1" 0) :
      Except String AzureChatOpenAI) =
    Except.ok (AzureChatOpenAI.mk "k" "2024-02-15-preview"
      "https://x.example.com" "d1" 0) :=
  get_llm_deterministic envBoth _ _ rfl rfl

/-- Claim C9: on success, the returned handle is constructed with exactly
the four resolved values (credential key, API version, normalized
endpoint, deployment identifier) plus the fixed temperature 0. -/
theorem client_constructed_from_resolved_values (env : Env) (k e d : String)
    (hk : env "AZURE_OPENAI_KEY" = some k) (hknz : k ≠ "")
    (he : env "AZURE_OPENAI_ENDPOINT" = some e) (henz : e ≠ "")
    (hd : deploymentResolved env = some d) (hdnz : d ≠ "") :
    get_llm env = Except.ok
      { api_key := k
        api_version := (env "AZURE_OPENAI_VERSION").getD "2024-02-15-preview"
        azure_endpoint := rstrip e '/'
        azure_deployment := d
        temperature := 0 } := by
  have hm : missingList env = [] := by
    apply (missingList_eq_nil_iff env).mpr
    refine ⟨?_, ?_, ?_⟩
    · rw [hk]
      exact (truthy_some_iff k).mpr hknz
    · rw [he]
      exact (truthy_some_iff e).mpr henz
    · rw [hd]
      exact (truthy_some_iff d).mpr hdnz
  rw [get_llm_of_nil env hm]
  unfold builtClient
  rw [hk, he, hd]
  rfl

/-- Witness for C9 at a fully populated environment. -/
theorem client_constructed_from_resolved_values_witness :
    get_llm envBoth = Except.ok
      { api_key := "k"
        api_version := "2024-02-15-preview"
        azure_endpoint := "https://x.example.com"
        azure_deployment := "d1"
        temperature := 0 } :=
  client_constructed_from_resolved_values envBoth "k" "https://x.example.com"
    "d1" rfl (by decide) rfl (by decide) rfl (by decide)

/-- Claim C10: missing names are reported in the fixed source order
credential key, endpoint, primary deployment name; the deployment field
is only ever reported under the primary variable name, never under the
secondary one. -/
theorem missing_names_fixed_order (env : Env) :
    (missingList env).Sublist requiredVars
    ∧ "AZURE_OPENAI_DEPLOYMENT" ∉ missingList env
    ∧ (truthy (deploymentResolved env) = false →
        "AZURE_OPENAI_DEPLOYMENT_NAME" ∈ missingList env) := by
  have hDeq : truthy (deploymentResolved env) =
      truthy (pyOr (env "AZURE_OPENAI_DEPLOYMENT_NAME")
        (env "AZURE_OPENAI_DEPLOYMENT")) := rfl
  cases hK : truthy (env "AZURE_OPENAI_KEY") <;>
    cases hE : truthy (env "AZURE_OPENAI_ENDPOINT") <;>
      cases hD : truthy (pyOr (env "AZURE_OPENAI_DEPLOYMENT_NAME")
          (env "AZURE_OPENAI_DEPLOYMENT")) <;>
        refine ⟨?_, ?_, ?_⟩ <;>
          simp [missingList, requiredVars, hK, hE, hD, hDeq]

/-- Witness for C10 at the empty environment: the secondary variable name
never appears among the reported missing names while the primary one
does. -/
theorem missing_names_fixed_order_witness :
    "AZURE_OPENAI_DEPLOYMENT" ∉ missingList envEmpty
    ∧ "AZURE_OPENAI_DEPLOYMENT_NAME" ∈ missingList envEmpty :=
  ⟨(missing_names_fixed_order envEmpty).2.1,
   (missing_names_fixed_order envEmpty).2.2 rfl⟩

end LLMFactory
